import Mathlib

/-!
Shallow embedding of `validate_layout.py` (the single source file of this
repository): a layout validator that checks text-block placements against
platform safe-zone margins, a minimum CTA pixel size, and a minimum legal
text scale.

Conventions of the embedding:
* JSON numbers are modelled as rationals (`ℚ`), exact arithmetic.
* Optional JSON fields are `Option`-valued; Python's `.get(key, default)`
  becomes `Option.getD`.
* `validate` returns `Option (List String)`: `none` models the function
  raising (in the Python source, `plat["topPx"] / h` raises
  `ZeroDivisionError` when the effective height is 0, and likewise for the
  width), `some vs` models a normal return of the violation list `vs`.
* The `formatId` field may hold any JSON scalar, because the source tests
  its truthiness (`spec.get("formatId") or "4x5"`); it is modelled by the
  inductive `FormatVal`.
-/

namespace ValidateLayout

/-- A platform profile: reference canvas dimensions and the four safe-zone
insets, all in pixels.  Mirrors one row of the `PLATFORMS` dict. -/
structure Platform where
  widthPx : ℚ
  heightPx : ℚ
  topPx : ℚ
  bottomPx : ℚ
  leftPx : ℚ
  rightPx : ℚ
  deriving DecidableEq, Repr

/-- The `"4x5"` row of `PLATFORMS`. -/
def plat4x5 : Platform := ⟨1440, 1800, 180, 180, 80, 80⟩

/-- The `"9x16"` row of `PLATFORMS`. -/
def plat9x16 : Platform := ⟨1440, 2560, 240, 492, 80, 80⟩

/-- The `"1:1"` row of `PLATFORMS`. -/
def plat1x1 : Platform := ⟨1080, 1080, 80, 80, 80, 80⟩

/-- The `PLATFORMS` table of the source, as an association list. -/
def PLATFORMS : List (String × Platform) :=
  [("4x5", plat4x5), ("9x16", plat9x16), ("1:1", plat1x1)]

/-- `CTA_MIN_H = 44` from the source. -/
def CTA_MIN_H : ℚ := 44

/-- `CTA_MIN_W = 120` from the source. -/
def CTA_MIN_W : ℚ := 120

/-- `LEGAL_MIN_SCALE = 0.65` from the source. -/
def LEGAL_MIN_SCALE : ℚ := 0.65

/-- A JSON scalar that may occupy the `formatId` field.  The source only
ever tests its truthiness and uses it as a dict key, so strings, numbers,
booleans and null suffice. -/
inductive FormatVal where
  | str (s : String)
  | num (q : ℚ)
  | bool (b : Bool)
  | null
  deriving DecidableEq, Repr

/-- Python truthiness of a JSON scalar: `""`, `0`, `False` and `null` are
falsy, everything else is truthy.  (`spec.get` returns `None` both for an
absent key and for a JSON `null` value; `FormatVal.null` covers the
latter.) -/
def FormatVal.truthy : FormatVal → Bool
  | .str s => s != ""
  | .num q => q != 0
  | .bool b => b
  | .null => false

/-- A bbox object: the four normalized-coordinate fields, each optional
(the source reads them with `bbox.get(_, 0)`). -/
structure Bbox where
  x? : Option ℚ
  y? : Option ℚ
  width? : Option ℚ
  height? : Option ℚ
  deriving DecidableEq, Repr

/-- The empty dict `{}` used as default when a block has no `bbox`. -/
def emptyBbox : Bbox := ⟨none, none, none, none⟩

/-- One entry of `textBlocks`: all fields optional, as in the source. -/
structure TextBlock where
  id? : Option String
  bbox? : Option Bbox
  role? : Option String
  scale? : Option ℚ
  deriving DecidableEq, Repr

/-- The input document handed to `validate`: `formatId`, optional canvas
override dimensions, and the block list (absent list means `[]`). -/
structure LayoutSpec where
  formatId? : Option FormatVal
  widthPx? : Option ℚ
  heightPx? : Option ℚ
  textBlocks? : Option (List TextBlock)
  deriving DecidableEq, Repr

/-- `bid = block.get("id", "?")`. -/
def TextBlock.blockId (blk : TextBlock) : String := blk.id?.getD "?"

/-- `x = block.get("bbox", {}).get("x", 0)`. -/
def TextBlock.posX (blk : TextBlock) : ℚ := (blk.bbox?.getD emptyBbox).x?.getD 0

/-- `y = block.get("bbox", {}).get("y", 0)`. -/
def TextBlock.posY (blk : TextBlock) : ℚ := (blk.bbox?.getD emptyBbox).y?.getD 0

/-- `bw = block.get("bbox", {}).get("width", 0)`. -/
def TextBlock.dimW (blk : TextBlock) : ℚ := (blk.bbox?.getD emptyBbox).width?.getD 0

/-- `bh = block.get("bbox", {}).get("height", 0)`. -/
def TextBlock.dimH (blk : TextBlock) : ℚ := (blk.bbox?.getD emptyBbox).height?.getD 0

/-- `scale = block.get("scale", 1)`. -/
def TextBlock.scaleVal (blk : TextBlock) : ℚ := blk.scale?.getD 1

/-- `fid = spec.get("formatId") or "4x5"`: an absent field, a JSON null, or
any falsy value is replaced by the string `"4x5"`. -/
def resolvedFid (fid? : Option FormatVal) : FormatVal :=
  match fid? with
  | some v => if v.truthy then v else .str "4x5"
  | none => .str "4x5"

/-- `PLATFORMS.get(fid, PLATFORMS["1:1"])`: only string keys occur in the
table, so a non-string `fid` always takes the `"1:1"` default. -/
def lookupPlatform : FormatVal → Platform
  | .str s => (PLATFORMS.lookup s).getD plat1x1
  | _ => plat1x1

/-- The platform profile `plat` that `validate` resolves from the
`formatId` field (lines 21-22 of the source). -/
def resolveProfile (fid? : Option FormatVal) : Platform :=
  lookupPlatform (resolvedFid fid?)

/-- The effective canvas width `w = spec.get("widthPx", plat["widthPx"])`. -/
def effW (spec : LayoutSpec) : ℚ :=
  spec.widthPx?.getD (resolveProfile spec.formatId?).widthPx

/-- The effective canvas height `h = spec.get("heightPx", plat["heightPx"])`. -/
def effH (spec : LayoutSpec) : ℚ :=
  spec.heightPx?.getD (resolveProfile spec.formatId?).heightPx

/-- The four geometric safe-zone checks of one block against the normalized
boundaries `t`, `b`, `l`, `r`, in source order (top, bottom, left, right);
each failing check contributes exactly one message. -/
def geomViolations (t b l r : ℚ) (blk : TextBlock) : List String :=
  (if blk.posY < t then [blk.blockId ++ ": extends into top safe zone"] else []) ++
  (if blk.posY + blk.dimH > b then [blk.blockId ++ ": extends into bottom safe zone"] else []) ++
  (if blk.posX < l then [blk.blockId ++ ": extends into left safe zone"] else []) ++
  (if blk.posX + blk.dimW > r then [blk.blockId ++ ": extends into right safe zone"] else [])

/-- The CTA minimum-size check: fires only when `role == "cta"`, comparing
the pixel dimensions `bh * h` and `bw * w` against the minimums. -/
def ctaViolations (w h : ℚ) (blk : TextBlock) : List String :=
  if blk.role? = some "cta" then
    if blk.dimH * h < CTA_MIN_H ∨ blk.dimW * w < CTA_MIN_W then
      [blk.blockId ++ ": CTA below min size 120x44px"]
    else []
  else []

/-- The legal minimum-scale check: fires only when `role == "legal"` and
`scale < LEGAL_MIN_SCALE`. -/
def legalViolations (blk : TextBlock) : List String :=
  if blk.role? = some "legal" then
    if blk.scaleVal < LEGAL_MIN_SCALE then
      [blk.blockId ++ ": legal text scale below minimum"]
    else []
  else []

/-- All messages one block contributes, in source order: the four geometric
checks, then the CTA check, then the legal check. -/
def checkBlock (t b l r w h : ℚ) (blk : TextBlock) : List String :=
  geomViolations t b l r blk ++ ctaViolations w h blk ++ legalViolations blk

/-- The `validate` function of `validate_layout.py`.  `none` models the
`ZeroDivisionError` that the Python raises while computing the normalized
boundaries when the effective height or width is 0; otherwise the result is
`some` of the accumulated violation list, blocks processed in input order. -/
def validate (spec : LayoutSpec) : Option (List String) :=
  let plat := resolveProfile spec.formatId?
  let w := effW spec
  let h := effH spec
  if h = 0 ∨ w = 0 then none
  else
    some ((spec.textBlocks?.getD []).flatMap
      (checkBlock (plat.topPx / h) (1 - plat.bottomPx / h)
        (plat.leftPx / w) (1 - plat.rightPx / w) w h))

/-! ### Concrete inputs used by witnesses and counterexamples -/

/-- Scenario 1 of the spec: a `"1:1"` document with one block at the
top-left corner. -/
def spec1 : LayoutSpec :=
  ⟨some (.str "1:1"), none, none,
    some [⟨some "a", some ⟨some 0, some 0, some (1/10), some (1/10)⟩, none, none⟩]⟩

/-- Scenario 2 of the spec: a `"4x5"` document with an undersized CTA
block. -/
def spec2 : LayoutSpec :=
  ⟨some (.str "4x5"), none, none,
    some [⟨some "cta1", some ⟨some (1/5), some (1/2), some (1/20), some (1/100)⟩,
      some "cta", none⟩]⟩

/-- The CTA block of scenario 2. -/
def blkCta : TextBlock :=
  ⟨some "cta1", some ⟨some (1/5), some (1/2), some (1/20), some (1/100)⟩, some "cta", none⟩

/-- The legal block of scenario 3 (`scale = 0.5`). -/
def blkLegal : TextBlock :=
  ⟨some "legal1", some ⟨some (1/10), some (3/10), some (3/10), some (1/20)⟩,
    some "legal", some (1/2)⟩

/-- A block whose bbox coincides exactly with the `"4x5"` safe-zone
boundaries: `[1/18, 17/18] × [1/10, 9/10]`. -/
def blkExact : TextBlock :=
  ⟨some "e", some ⟨some (1/18), some (1/10), some (8/9), some (4/5)⟩, none, none⟩

/-- A document that sets `widthPx` to 0 with a nonempty block list. -/
def specZeroW : LayoutSpec :=
  ⟨none, some 0, none,
    some [⟨some "a", some ⟨some (1/2), some (1/2), some (1/10), some (1/10)⟩, none, none⟩]⟩

/-- A document that sets `widthPx` to 0 with an empty block list. -/
def specZeroWEmpty : LayoutSpec := ⟨some (.str "4x5"), some 0, none, some []⟩

/-- The empty document `{}`. -/
def specEmpty : LayoutSpec := ⟨none, none, none, none⟩

/-- A `"4x5"` document overriding `widthPx` to 1000, with no blocks. -/
def specB : LayoutSpec := ⟨some (.str "4x5"), some 1000, none, some []⟩

/-- Transcription of the spec's step-4 description of the output: for each
block in input order, the six checks in the order top, bottom, left, right,
CTA, legal, each failing check contributing exactly one message.  Used to
state the ordering claim against `validate`. -/
def orderedForm (spec : LayoutSpec) : List String :=
  (spec.textBlocks?.getD []).flatMap (fun blk =>
    (if blk.posY < (resolveProfile spec.formatId?).topPx / effH spec then
      [blk.blockId ++ ": extends into top safe zone"] else []) ++
    (if blk.posY + blk.dimH > 1 - (resolveProfile spec.formatId?).bottomPx / effH spec then
      [blk.blockId ++ ": extends into bottom safe zone"] else []) ++
    (if blk.posX < (resolveProfile spec.formatId?).leftPx / effW spec then
      [blk.blockId ++ ": extends into left safe zone"] else []) ++
    (if blk.posX + blk.dimW > 1 - (resolveProfile spec.formatId?).rightPx / effW spec then
      [blk.blockId ++ ": extends into right safe zone"] else []) ++
    (if blk.role? = some "cta" then
      (if blk.dimH * effH spec < CTA_MIN_H ∨ blk.dimW * effW spec < CTA_MIN_W then
        [blk.blockId ++ ": CTA below min size 120x44px"] else []) else []) ++
    (if blk.role? = some "legal" then
      (if blk.scaleVal < LEGAL_MIN_SCALE then
        [blk.blockId ++ ": legal text scale below minimum"] else []) else []))

/-! ### Shared lemmas -/

/-- On nonzero effective dimensions, `validate` returns the per-block
messages flattened in input order. -/
theorem validate_unfold (spec : LayoutSpec) (hne : ¬(effH spec = 0 ∨ effW spec = 0)) :
    validate spec = some ((spec.textBlocks?.getD []).flatMap
      (checkBlock ((resolveProfile spec.formatId?).topPx / effH spec)
        (1 - (resolveProfile spec.formatId?).bottomPx / effH spec)
        ((resolveProfile spec.formatId?).leftPx / effW spec)
        (1 - (resolveProfile spec.formatId?).rightPx / effW spec)
        (effW spec) (effH spec))) := by
  simp only [validate]
  rw [if_neg hne]

/-- If `validate` returned a list, the effective dimensions were nonzero. -/
theorem dims_nonzero_of_validate_some (spec : LayoutSpec) (vs : List String)
    (hv : validate spec = some vs) : ¬(effH spec = 0 ∨ effW spec = 0) := by
  intro h
  simp only [validate] at hv
  rw [if_pos h] at hv
  exact Option.noConfusion hv

/-- Scenario 1 evaluated: the corner block of `spec1` breaks the top and
left safe zones and nothing else. -/
theorem spec1_eval :
    validate spec1 = some ["a: extends into top safe zone", "a: extends into left safe zone"] := by
  have e1 : resolveProfile spec1.formatId? = plat1x1 := rfl
  have e2 : effW spec1 = 1080 := rfl
  have e3 : effH spec1 = 1080 := rfl
  simp only [validate, e1, e2, e3]
  norm_num [checkBlock, geomViolations, ctaViolations, legalViolations, plat1x1,
    TextBlock.blockId, TextBlock.posX, TextBlock.posY, TextBlock.dimW, TextBlock.dimH,
    TextBlock.scaleVal, emptyBbox, CTA_MIN_H, CTA_MIN_W, LEGAL_MIN_SCALE, spec1]
  decide

/-! ### Claims -/

/-- **C1.** `validate` resolves the platform profile from `formatId`: an
absent (or falsy, i.e. unset) `formatId` gives the `"4x5"` profile; a
present truthy `formatId` that is not a key of the platform table (whether
a non-key string or a non-string value) gives the `"1:1"` profile; a
present key of the table gives that key's profile. -/
theorem validate_formatId_resolution :
    (∀ spec : LayoutSpec, spec.formatId? = none →
      resolveProfile spec.formatId? = plat4x5) ∧
    (∀ (spec : LayoutSpec) (v : FormatVal), spec.formatId? = some v →
      v.truthy = false → resolveProfile spec.formatId? = plat4x5) ∧
    (∀ (spec : LayoutSpec) (s : String), spec.formatId? = some (.str s) →
      s ≠ "" → PLATFORMS.lookup s = none → resolveProfile spec.formatId? = plat1x1) ∧
    (∀ (spec : LayoutSpec) (v : FormatVal), spec.formatId? = some v →
      v.truthy = true → (∀ s : String, v ≠ .str s) →
      resolveProfile spec.formatId? = plat1x1) ∧
    (∀ (spec : LayoutSpec) (s : String) (p : Platform), spec.formatId? = some (.str s) →
      s ≠ "" → PLATFORMS.lookup s = some p → resolveProfile spec.formatId? = p) := by
  refine ⟨?_, ?_, ?_, ?_, ?_⟩
  · intro spec hf
    rw [hf]; rfl
  · intro spec v hf hv
    rw [hf]
    simp [resolveProfile, resolvedFid, hv]
    rfl
  · intro spec s hf hs hlook
    rw [hf]
    have ht : (FormatVal.str s).truthy = true := by
      simp [FormatVal.truthy]
      exact hs
    simp [resolveProfile, resolvedFid, ht, lookupPlatform, hlook]
  · intro spec v hf hv hns
    rw [hf]
    simp only [resolveProfile, resolvedFid, hv, if_true]
    cases v with
    | str s => exact absurd rfl (hns s)
    | num q => rfl
    | bool b => rfl
    | null => rfl
  · intro spec s p hf hs hlook
    rw [hf]
    have ht : (FormatVal.str s).truthy = true := by
      simp [FormatVal.truthy]
      exact hs
    simp [resolveProfile, resolvedFid, ht, lookupPlatform, hlook]

/-- Witness for C1: the unknown id `"bogus"` resolves to the `"1:1"`
profile. -/
theorem validate_formatId_resolution_witness :
    resolveProfile (LayoutSpec.formatId? ⟨some (.str "bogus"), none, none, none⟩) = plat1x1 :=
  validate_formatId_resolution.2.2.1 ⟨some (.str "bogus"), none, none, none⟩ "bogus"
    rfl (by decide) (by decide)

/-- **C9.** A present but falsy `formatId` (empty string, null, 0, false)
resolves to the `"4x5"` profile, exactly as an absent field does, because
`spec.get("formatId") or "4x5"` replaces any falsy value. -/
theorem falsy_formatId_resolves_to_4x5 (v : FormatVal) (hv : v.truthy = false) :
    resolveProfile (some v) = plat4x5 ∧
    resolveProfile (some v) = resolveProfile none ∧
    resolveProfile (some (.str "")) = plat4x5 ∧
    resolveProfile (some .null) = plat4x5 ∧
    resolveProfile (some (.num 0)) = plat4x5 ∧
    resolveProfile (some (.bool false)) = plat4x5 := by
  have h : resolveProfile (some v) = plat4x5 := by
    simp [resolveProfile, resolvedFid, hv]
    rfl
  exact ⟨h, by rw [h]; rfl, rfl, rfl, rfl, rfl⟩

/-- Witness for C9: the empty string is falsy and resolves to `"4x5"`. -/
theorem falsy_formatId_resolves_to_4x5_witness :
    resolveProfile (some (FormatVal.str "")) = plat4x5 :=
  (falsy_formatId_resolves_to_4x5 (.str "") (by decide)).1

/-- **C2, counterexample.** `validate` is not total: on a document whose
`widthPx` is 0 (a well-typed numeric field), the source raises
`ZeroDivisionError` at `left_n = plat["leftPx"] / w` (modelled as `none`)
instead of returning a violation list. -/
theorem validate_zero_width_raises : validate specZeroW = none := by
  have hw : effW specZeroW = 0 := rfl
  simp [validate, hw]

/-- **C2, amended.** `validate` never raises on any document whose
effective canvas dimensions are nonzero: it returns a violation list.
(Missing bbox fields degrade to 0 and a missing scale to 1, as the
accessor conjuncts state.) -/
theorem validate_total_of_nonzero (spec : LayoutSpec)
    (hh : effH spec ≠ 0) (hw : effW spec ≠ 0) :
    (∃ vs : List String, validate spec = some vs) ∧
    (∀ blk : TextBlock, blk.bbox? = none →
      blk.posX = 0 ∧ blk.posY = 0 ∧ blk.dimW = 0 ∧ blk.dimH = 0) ∧
    (∀ blk : TextBlock, blk.scale? = none → blk.scaleVal = 1) := by
  refine ⟨?_, ?_, ?_⟩
  · simp only [validate]
    rw [if_neg (by push_neg; exact ⟨hh, hw⟩)]
    exact ⟨_, rfl⟩
  · intro blk hb
    simp [TextBlock.posX, TextBlock.posY, TextBlock.dimW, TextBlock.dimH, hb, emptyBbox]
  · intro blk hs
    simp [TextBlock.scaleVal, hs]

/-- Witness for C2 (amended): the empty document has effective dimensions
1440×1800 and `validate` returns a list on it. -/
theorem validate_total_of_nonzero_witness :
    effH specEmpty ≠ 0 ∧ effW specEmpty ≠ 0 ∧
    ∃ vs : List String, validate specEmpty = some vs :=
  ⟨by decide, by decide,
    (validate_total_of_nonzero specEmpty (by decide) (by decide)).1⟩

/-- **C7, counterexample.** A document with an empty block list but
`widthPx = 0` does not return the empty violation list: the source raises
`ZeroDivisionError` while computing the normalized boundaries (modelled as
`none`), so "for every input spec with an empty block list" fails. -/
theorem empty_blocks_zero_width_raises :
    validate specZeroWEmpty = none ∧ validate specZeroWEmpty ≠ some [] := by
  have hw : effW specZeroWEmpty = 0 := rfl
  constructor
  · simp [validate, hw]
  · simp [validate, hw]

/-- **C7, amended.** On every document whose block list is empty or absent
and whose effective canvas dimensions are nonzero, `validate` returns the
empty violation list, whatever `formatId` holds. -/
theorem empty_blocks_no_violations (spec : LayoutSpec)
    (hblocks : spec.textBlocks? = none ∨ spec.textBlocks? = some [])
    (hh : effH spec ≠ 0) (hw : effW spec ≠ 0) :
    validate spec = some [] := by
  simp only [validate]
  rw [if_neg]
  · rcases hblocks with hb | hb <;> simp [hb]
  · push_neg
    exact ⟨hh, hw⟩

/-- Witness for C7 (amended): the empty document `{}` resolves to the
`"4x5"` profile and yields no violations. -/
theorem empty_blocks_no_violations_witness :
    specEmpty.textBlocks? = none ∧ effH specEmpty ≠ 0 ∧ effW specEmpty ≠ 0 ∧
    validate specEmpty = some [] :=
  ⟨rfl, by decide, by decide,
    empty_blocks_no_violations specEmpty (Or.inl rfl) (by decide) (by decide)⟩

/-- **C3.** The normalized safe-zone boundaries divide the resolved
profile's insets by the *effective* canvas dimensions: whenever `validate`
returns, the result was computed from the boundaries `topPx / h`,
`1 - bottomPx / h`, `leftPx / w`, `1 - rightPx / w` with `w`/`h` the
spec-provided dimensions when present and the profile's reference
dimensions otherwise — never the profile's fixed reference when the spec
overrides them. -/
theorem boundaries_use_effective_dims (spec : LayoutSpec) (vs : List String)
    (hv : validate spec = some vs) :
    vs = (spec.textBlocks?.getD []).flatMap
        (checkBlock ((resolveProfile spec.formatId?).topPx / effH spec)
          (1 - (resolveProfile spec.formatId?).bottomPx / effH spec)
          ((resolveProfile spec.formatId?).leftPx / effW spec)
          (1 - (resolveProfile spec.formatId?).rightPx / effW spec)
          (effW spec) (effH spec)) ∧
      (∀ q : ℚ, spec.widthPx? = some q → effW spec = q) ∧
      (spec.widthPx? = none → effW spec = (resolveProfile spec.formatId?).widthPx) ∧
      (∀ q : ℚ, spec.heightPx? = some q → effH spec = q) ∧
      (spec.heightPx? = none → effH spec = (resolveProfile spec.formatId?).heightPx) := by
  refine ⟨?_, ?_, ?_, ?_, ?_⟩
  · have hne := dims_nonzero_of_validate_some spec vs hv
    rw [validate_unfold spec hne] at hv
    exact (Option.some.inj hv).symm
  · intro q hq
    simp [effW, hq]
  · intro hq
    simp [effW, hq]
  · intro q hq
    simp [effH, hq]
  · intro hq
    simp [effH, hq]

/-- Witness for C3: on `specB` the overridden width 1000 is the effective
width used by the boundary computation. -/
theorem boundaries_use_effective_dims_witness : effW specB = 1000 :=
  (boundaries_use_effective_dims specB [] (by decide)).2.1 1000 rfl

/-- **C8.** Whenever `validate` returns a list, its messages are exactly the
per-block messages in input block order, one message per failing check,
with per-block check order top, bottom, left, right, CTA, legal
(`orderedForm` transcribes that description). -/
theorem violations_ordered (spec : LayoutSpec) (vs : List String)
    (hv : validate spec = some vs) : vs = orderedForm spec := by
  have hne := dims_nonzero_of_validate_some spec vs hv
  rw [validate_unfold spec hne] at hv
  rw [← Option.some.inj hv, orderedForm]
  congr 1

/-- Witness for C8: the two messages of scenario 1, in check order. -/
theorem violations_ordered_witness :
    ["a: extends into top safe zone", "a: extends into left safe zone"] = orderedForm spec1 :=
  violations_ordered spec1 _ spec1_eval

/-- Every single block contributes at most 6 messages: 4 geometric, 1 CTA,
1 legal. -/
theorem checkBlock_length_le (t b l r w h : ℚ) (blk : TextBlock) :
    (checkBlock t b l r w h blk).length ≤ 6 := by
  unfold checkBlock geomViolations ctaViolations legalViolations
  split_ifs <;> simp

/-- **C10.** The violation list `validate` returns is at most 6 times as
long as the block list: each block contributes at most four geometric
messages, at most one CTA message, and at most one legal message. -/
theorem violations_length_bound (spec : LayoutSpec) (vs : List String)
    (hv : validate spec = some vs) :
    vs.length ≤ 6 * (spec.textBlocks?.getD []).length := by
  have hne := dims_nonzero_of_validate_some spec vs hv
  rw [validate_unfold spec hne] at hv
  rw [← Option.some.inj hv]
  generalize (spec.textBlocks?.getD []) = blocks
  induction blocks with
  | nil => simp
  | cons head tail ih =>
    simp only [List.flatMap_cons, List.length_append, List.length_cons]
    have hhead := checkBlock_length_le ((resolveProfile spec.formatId?).topPx / effH spec)
      (1 - (resolveProfile spec.formatId?).bottomPx / effH spec)
      ((resolveProfile spec.formatId?).leftPx / effW spec)
      (1 - (resolveProfile spec.formatId?).rightPx / effW spec)
      (effW spec) (effH spec) head
    omega

/-- Witness for C10: scenario 1 has one block and two violations, 2 ≤ 6. -/
theorem violations_length_bound_witness :
    (["a: extends into top safe zone", "a: extends into left safe zone"] : List String).length ≤
      6 * (spec1.textBlocks?.getD []).length :=
  violations_length_bound spec1 _ spec1_eval

/-- **C4.** A block whose bbox satisfies `top_n ≤ y`, `y + height ≤
bottom_n`, `left_n ≤ x` and `x + width ≤ right_n` — boundary equality
included — contributes zero geometric messages (all four checks are strict
inequalities), and its contribution to the flattened output is just its
role-specific messages, independent of the blocks around it. -/
theorem inbounds_block_no_geom (t b l r w h : ℚ) (blk : TextBlock)
    (ht : t ≤ blk.posY) (hb : blk.posY + blk.dimH ≤ b)
    (hl : l ≤ blk.posX) (hr : blk.posX + blk.dimW ≤ r) :
    geomViolations t b l r blk = [] ∧
    checkBlock t b l r w h blk = ctaViolations w h blk ++ legalViolations blk ∧
    ∀ pre post : List TextBlock,
      (pre ++ blk :: post).flatMap (checkBlock t b l r w h) =
        pre.flatMap (checkBlock t b l r w h) ++
          (ctaViolations w h blk ++ legalViolations blk) ++
          post.flatMap (checkBlock t b l r w h) := by
  have hgeom : geomViolations t b l r blk = [] := by
    simp only [geomViolations]
    rw [if_neg (not_lt.mpr ht), if_neg (not_lt.mpr hb), if_neg (not_lt.mpr hl),
      if_neg (not_lt.mpr hr)]
    rfl
  refine ⟨hgeom, ?_, ?_⟩
  · simp [checkBlock, hgeom]
  · intro pre post
    simp [List.flatMap_append, List.flatMap_cons, checkBlock, hgeom, List.append_assoc]

/-- Witness for C4: the block `blkExact` sits exactly on the `"4x5"`
boundaries (`top_n = 1/10`, `bottom_n = 9/10`, `left_n = 1/18`,
`right_n = 17/18`) and produces no geometric violations. -/
theorem inbounds_block_no_geom_witness :
    geomViolations (1/10) (9/10) (1/18) (17/18) blkExact = [] :=
  (inbounds_block_no_geom (1/10) (9/10) (1/18) (17/18) 1440 1800 blkExact
    (by norm_num [TextBlock.posY, blkExact, emptyBbox])
    (by norm_num [TextBlock.posY, TextBlock.dimH, blkExact, emptyBbox])
    (by norm_num [TextBlock.posX, blkExact, emptyBbox])
    (by norm_num [TextBlock.posX, TextBlock.dimW, blkExact, emptyBbox])).1

/-- **C5.** A block with role `"cta"` gets exactly one message
`"<id>: CTA below min size 120x44px"` iff its pixel height `height * h` is
below 44 or its pixel width `width * w` is below 120; on the scenario-2
`"4x5"` document the 72×18-pixel CTA yields exactly that violation. -/
theorem cta_min_size (w h : ℚ) (blk : TextBlock) (hrole : blk.role? = some "cta") :
    ((blk.dimH * h < CTA_MIN_H ∨ blk.dimW * w < CTA_MIN_W) →
      ctaViolations w h blk = [blk.blockId ++ ": CTA below min size 120x44px"]) ∧
    (¬(blk.dimH * h < CTA_MIN_H ∨ blk.dimW * w < CTA_MIN_W) →
      ctaViolations w h blk = []) ∧
    validate spec2 = some ["cta1: CTA below min size 120x44px"] := by
  refine ⟨fun hc => ?_, fun hc => ?_, ?_⟩
  · simp [ctaViolations, hrole, hc]
  · simp [ctaViolations, hrole, hc]
  · have e1 : resolveProfile spec2.formatId? = plat4x5 := rfl
    have e2 : effW spec2 = 1440 := rfl
    have e3 : effH spec2 = 1800 := rfl
    simp only [validate, e1, e2, e3]
    norm_num [checkBlock, geomViolations, ctaViolations, legalViolations, plat4x5,
      TextBlock.blockId, TextBlock.posX, TextBlock.posY, TextBlock.dimW, TextBlock.dimH,
      TextBlock.scaleVal, emptyBbox, CTA_MIN_H, CTA_MIN_W, LEGAL_MIN_SCALE, spec2]
    decide

/-- Witness for C5: the scenario-2 CTA block (18px high, 72px wide on the
`"4x5"` canvas) gets the minimum-size message. -/
theorem cta_min_size_witness :
    ctaViolations 1440 1800 blkCta = [blkCta.blockId ++ ": CTA below min size 120x44px"] :=
  (cta_min_size 1440 1800 blkCta rfl).1
    (Or.inl (by norm_num [TextBlock.dimH, blkCta, emptyBbox, CTA_MIN_H]))

/-- **C6.** A block with role `"legal"` gets the message
`"<id>: legal text scale below minimum"` iff its scale (1 when absent) is
strictly below 0.65; blocks with any other role, or none, get neither the
CTA nor the legal check. -/
theorem legal_scale_and_role_checks (w h : ℚ) (blk : TextBlock) :
    (blk.role? = some "legal" →
      (blk.scaleVal < LEGAL_MIN_SCALE →
        legalViolations blk = [blk.blockId ++ ": legal text scale below minimum"]) ∧
      (¬blk.scaleVal < LEGAL_MIN_SCALE → legalViolations blk = [])) ∧
    (blk.scale? = none → blk.scaleVal = 1) ∧
    (blk.role? ≠ some "cta" → ctaViolations w h blk = []) ∧
    (blk.role? ≠ some "legal" → legalViolations blk = []) := by
  refine ⟨fun hrole => ⟨fun hs => ?_, fun hs => ?_⟩, fun hs => ?_, fun hr => ?_, fun hr => ?_⟩
  · simp [legalViolations, hrole, hs]
  · simp [legalViolations, hrole, hs]
  · simp [TextBlock.scaleVal, hs]
  · simp [ctaViolations, hr]
  · simp [legalViolations, hr]

/-- Witness for C6: the scenario-3 legal block with scale 0.5 gets the
minimum-scale message. -/
theorem legal_scale_and_role_checks_witness :
    legalViolations blkLegal = [blkLegal.blockId ++ ": legal text scale below minimum"] :=
  ((legal_scale_and_role_checks 1440 2560 blkLegal).1 rfl).1
    (by norm_num [TextBlock.scaleVal, blkLegal, LEGAL_MIN_SCALE])

end ValidateLayout
